import Mathlib

/-
Verification of the recommendation engine of the oracle-debezium-metrics
diagnostic tool (function `computeRecommendations` in `src/report.ts`).

Modelling conventions:
- JavaScript `number` values are modelled as exact rationals (`ℚ`); the
  NaN/Infinity corner of IEEE floats is outside the model.  Counts that the
  program produces with `COUNT(*)` / `Array.length` are modelled as `ℕ`.
- `Math.ceil` and `Math.round` are modelled as `jsCeil` and `jsRound`
  (JavaScript rounds half up, i.e. `Math.round x = floor (x + 1/2)`).
- The warning strings pushed by the engine are templates with interpolated
  data; string rendering (`toFixed`, float printing) is presentation, so a
  warning is modelled as a tagged value `Warning` carrying exactly the data
  the source interpolates into the corresponding template string.
- The `lobReason` field is a plain string in the source and is kept as a
  `String` here; the one float-free template it uses is reproduced exactly.
-/

/-- MetricStats mirrors the `MetricStats` interface of report.ts: the
summary produced by `getMetricStats` for one sampled metric. -/
structure MetricStats where
  min : ℚ
  max : ℚ
  avg : ℚ
  p95 : ℚ
  samples : ℕ
  deriving Repr, DecidableEq

/-- RedoLogRow mirrors one row of the `redo_log_config` static fact
(query over v$log in setup.ts); only the BYTES field is read by the engine. -/
structure RedoLogRow where
  BYTES : ℚ
  deriving Repr, DecidableEq

/-- LobColumn mirrors one row of the `lob_columns` static fact; the engine
interpolates TABLE_NAME and COLUMN_NAME into the LOB warning. -/
structure LobColumn where
  TABLE_NAME : String
  COLUMN_NAME : String
  deriving Repr, DecidableEq

/-- SuppLogRow mirrors one row of the `supplemental_logging` static fact.
JavaScript field access on a missing key yields `undefined`, modelled as
`Option.none`. -/
structure SuppLogRow where
  SUPPLEMENTAL_LOG_DATA_MIN : Option String
  deriving Repr, DecidableEq

/-- SuppLogFact models the JSON value `getStatic` can hand to the engine for
`supplemental_logging`: `null` when the row is absent, the raw string when
`JSON.parse` fails, an array of rows, or some other parsed JSON value. -/
inductive SuppLogFact where
  | null : SuppLogFact
  | str (s : String) : SuppLogFact
  | arr (rows : List SuppLogRow) : SuppLogFact
  | other : SuppLogFact
  deriving Repr, DecidableEq

/-- DiagReport mirrors the slice of the `DiagReport` interface read by
`computeRecommendations` (report.ts lines 17-41), with the fields at their
declared TypeScript types. -/
structure DiagReport where
  switchesPerHour : MetricStats
  archiveGbPerHour : MetricStats
  avgArchiveFileSizeGb : ℚ
  oldestTxnMinutes : MetricStats
  activeTxnCount : MetricStats
  archiveWindowHours : MetricStats
  archiveDiskUsedGb : MetricStats
  samplingDurationHours : ℚ
  redoLogConfig : List RedoLogRow
  lobColumns : List LobColumn
  capturedTableCount : ℕ
  schemaTableCount : ℕ
  supplementalLogging : SuppLogFact
  archiveLagTarget : ℤ
  maxStringSize : String
  captureSchema : String
  captureTablePattern : String
  deriving Repr, DecidableEq

/-- Warning models one entry of the engine's `warnings` list.  Each
constructor stands for the template string the source pushes, carrying the
data the source interpolates into it (report.ts lines 250-253, 279-283,
292-296, 304, 315-320). -/
inductive Warning where
  | lobColumns (cols : List LobColumn) (maxStringSize : String) : Warning
  | queryFilter (ratio : ℚ) : Warning
  | archiveLag (minSwitchRate : ℚ) : Warning
  | supplementalLogging : Warning
  | retentionRisk (minWindowHours : ℚ) (retentionHours : ℤ) : Warning
  deriving Repr, DecidableEq

/-- Recommendations mirrors the `Recommendations` interface of report.ts. -/
structure Recommendations where
  redoLogSizeGb : ℚ
  redoLogGroups : ℕ
  archiveRetentionHours : ℤ
  archiveRetentionDiskGb : ℤ
  lobEnabled : Bool
  lobReason : String
  transactionRetentionMs : ℚ
  heartbeatIntervalMs : ℕ
  batchSizeDefault : ℕ
  batchSizeMax : ℕ
  maxRetries : ℕ
  queryFilterMode : String
  archiveLogOnlyMode : Bool
  warnings : List Warning
  deriving Repr, DecidableEq

/-- jsCeil models JavaScript `Math.ceil`: the least integer not below the
argument. -/
def jsCeil (q : ℚ) : ℤ := Int.ceil q

/-- jsRound models JavaScript `Math.round`, which rounds half away from
minus infinity: `Math.round x = floor (x + 1/2)`. -/
def jsRound (q : ℚ) : ℤ := Int.floor (q + 1/2)

/-- hasLobs mirrors `r.lobColumns && r.lobColumns.length > 0`
(report.ts line 199). -/
def hasLobs (r : DiagReport) : Bool := !r.lobColumns.isEmpty

/-- currentRedoSizeGb mirrors report.ts lines 205-207: the first configured
group's BYTES converted to gigabytes, defaulting to 4 GB when no redo-log
configuration rows are present. -/
def currentRedoSizeGb (r : DiagReport) : ℚ :=
  match r.redoLogConfig with
  | row :: _ => row.BYTES / 1024 ^ 3
  | [] => 4

/-- currentGroups mirrors `r.redoLogConfig.length` (report.ts line 208). -/
def currentGroups (r : DiagReport) : ℕ := r.redoLogConfig.length

/-- peakGbPerHour mirrors `r.archiveGbPerHour.p95 || r.archiveGbPerHour.max`
(report.ts line 214): p95 unless it is zero (falsy), else the maximum. -/
def peakGbPerHour (r : DiagReport) : ℚ :=
  if r.archiveGbPerHour.p95 = 0 then r.archiveGbPerHour.max else r.archiveGbPerHour.p95

/-- redoLogSizeGbRaw mirrors report.ts lines 210-217 before the final
rounding: keep the current size unless the p95 switch rate exceeds 6/hour,
otherwise `max (ceil (peak / targetSwitches)) 2` with `targetSwitches = 4`. -/
def redoLogSizeGbRaw (r : DiagReport) : ℚ :=
  if r.switchesPerHour.p95 > 6 then
    max ((jsCeil (peakGbPerHour r / 4) : ℤ) : ℚ) 2
  else currentRedoSizeGb r

/-- redoLogGroups mirrors `Math.max(currentGroups, 4)` (report.ts line 220). -/
def redoLogGroups (r : DiagReport) : ℕ := max (currentGroups r) 4

/-- archiveWriteTimeMin mirrors `(r.avgArchiveFileSizeGb / 0.5) * 1`
(report.ts line 226). -/
def archiveWriteTimeMin (r : DiagReport) : ℚ := r.avgArchiveFileSizeGb / (0.5 : ℚ) * 1

/-- switchIntervalMinP95 mirrors report.ts line 232:
`r.switchesPerHour.p95 > 0 ? 60 / r.switchesPerHour.p95 : 30`. -/
def switchIntervalMinP95 (r : DiagReport) : ℚ :=
  if r.switchesPerHour.p95 > 0 then 60 / r.switchesPerHour.p95 else 30

/-- minRetentionMin mirrors the three-way `Math.max` of report.ts lines
233-237, in minutes (15 is the LogMiner session overhead, 60 the safety
buffer, 120 the absolute floor). -/
def minRetentionMin (r : DiagReport) : ℚ :=
  max (max (r.oldestTxnMinutes.p95 + 60)
    (switchIntervalMinP95 r * 3 + archiveWriteTimeMin r + 15 + 60)) 120

/-- archiveRetentionHours mirrors `Math.ceil(minRetentionMin / 60)`
(report.ts line 238). -/
def archiveRetentionHours (r : DiagReport) : ℤ := jsCeil (minRetentionMin r / 60)

/-- retentionDiskGb mirrors `r.archiveGbPerHour.p95 * archiveRetentionHours`
(report.ts line 240). -/
def retentionDiskGb (r : DiagReport) : ℚ :=
  r.archiveGbPerHour.p95 * (archiveRetentionHours r : ℚ)

/-- lobReason mirrors report.ts lines 244-249. -/
def lobReason (r : DiagReport) : String :=
  if hasLobs r then
    toString r.lobColumns.length ++ " LOB column(s) found in captured tables. " ++
      "LOB capture disabled by default to prevent watermark pinning. " ++
      "Enable only if LOB data capture is required AND retention is >= " ++
      toString (archiveRetentionHours r + 1) ++ "h."
  else "No LOB columns in captured tables."

/-- txnRetentionMs mirrors report.ts lines 262-265:
`Math.max(r.oldestTxnMinutes.p95 * 2 * 60 * 1000, 300000)`. -/
def txnRetentionMs (r : DiagReport) : ℚ :=
  max (r.oldestTxnMinutes.p95 * 2 * 60 * 1000) 300000

/-- heartbeatIntervalMs mirrors report.ts line 269. -/
def heartbeatIntervalMs (r : DiagReport) : ℕ :=
  if archiveRetentionHours r ≤ 2 then 10000 else 30000

/-- captureRatio mirrors report.ts line 272:
`r.schemaTableCount > 0 ? r.capturedTableCount / r.schemaTableCount : 1`. -/
def captureRatio (r : DiagReport) : ℚ :=
  if r.schemaTableCount > 0
    then (r.capturedTableCount : ℚ) / (r.schemaTableCount : ℚ)
    else 1

/-- batchSizeDefault mirrors report.ts line 273. -/
def batchSizeDefault (r : DiagReport) : ℕ :=
  if captureRatio r < (0.3 : ℚ) then 5000 else 10000

/-- batchSizeMax mirrors report.ts line 274. -/
def batchSizeMax (r : DiagReport) : ℕ :=
  if captureRatio r < (0.3 : ℚ) then 10000 else 50000

/-- queryFilterMode mirrors report.ts line 277. -/
def queryFilterMode (r : DiagReport) : String :=
  if captureRatio r < (0.5 : ℚ) then "regex" else "none"

/-- maxRetries mirrors report.ts line 288. -/
def maxRetries (r : DiagReport) : ℕ :=
  if r.avgArchiveFileSizeGb > 5 then 30 else 10

/-- suppLogWarnings mirrors report.ts lines 300-306: warn exactly when the
supplemental-logging fact is a non-empty array whose first row's
SUPPLEMENTAL_LOG_DATA_MIN is not the string YES. -/
def suppLogWarnings (r : DiagReport) : List Warning :=
  match r.supplementalLogging with
  | SuppLogFact.arr (row :: _) =>
      if row.SUPPLEMENTAL_LOG_DATA_MIN ≠ some "YES" then [Warning.supplementalLogging] else []
  | _ => []

/-- warnings mirrors the push order of report.ts: LOB (line 250), query
filter (line 279), archive lag (line 292), supplemental logging (line 304),
retention risk (line 315). -/
def warnings (r : DiagReport) : List Warning :=
  (if hasLobs r then [Warning.lobColumns r.lobColumns r.maxStringSize] else []) ++
  (if queryFilterMode r = "regex" then [Warning.queryFilter ( captureRatio r)] else []) ++
  (if r.archiveLagTarget = 0 ∧ r.switchesPerHour.min < 2
    then [Warning.archiveLag r.switchesPerHour.min] else []) ++
  suppLogWarnings r ++
  (if 0 < r.archiveWindowHours.samples ∧ r.archiveWindowHours.min < (archiveRetentionHours r : ℚ)
    then [Warning.retentionRisk r.archiveWindowHours.min (archiveRetentionHours r)] else [])

/-- computeRecommendations mirrors report.ts lines 197-339; the local
constants of the source function are the helper definitions above, and the
returned record applies the final roundings of lines 324 and 327. -/
def computeRecommendations (r : DiagReport) : Recommendations :=
  { redoLogSizeGb := (jsRound (redoLogSizeGbRaw r * 10) : ℚ) / 10
    redoLogGroups := redoLogGroups r
    archiveRetentionHours := archiveRetentionHours r
    archiveRetentionDiskGb := jsRound (retentionDiskGb r)
    lobEnabled := false
    lobReason := lobReason r
    transactionRetentionMs := txnRetentionMs r
    heartbeatIntervalMs := heartbeatIntervalMs r
    batchSizeDefault := batchSizeDefault r
    batchSizeMax := batchSizeMax r
    maxRetries := maxRetries r
    queryFilterMode := queryFilterMode r
    archiveLogOnlyMode := false
    warnings := warnings r }

/-- zeroStats is the all-zero statistic `getMetricStats` returns when a
metric has no samples. -/
def zeroStats : MetricStats :=
  { min := 0, max := 0, avg := 0, p95 := 0, samples := 0 }

/-- baseReport is a minimal snapshot: no samples for any metric, empty
redo-log configuration and LOB list, absent supplemental-logging fact. -/
def baseReport : DiagReport :=
  { switchesPerHour := zeroStats
    archiveGbPerHour := zeroStats
    avgArchiveFileSizeGb := 0
    oldestTxnMinutes := zeroStats
    activeTxnCount := zeroStats
    archiveWindowHours := zeroStats
    archiveDiskUsedGb := zeroStats
    samplingDurationHours := 0
    redoLogConfig := []
    lobColumns := []
    capturedTableCount := 0
    schemaTableCount := 0
    supplementalLogging := SuppLogFact.null
    archiveLagTarget := 0
    maxStringSize := "STANDARD"
    captureSchema := "UNKNOWN"
    captureTablePattern := "UNKNOWN" }

/-- claimC1SpecRetentionHours renders the archive-retention formula exactly
as claim C1 words it, for comparison with the source: the ceiling in hours
of the maximum of the three lower bounds in minutes, where switchIntervalP95
is 60 divided by the switch-rate p95 when that p95 is NONZERO (the source
instead tests strictly positive) and 30 otherwise. -/
def claimC1SpecRetentionHours (r : DiagReport) : ℤ :=
  jsCeil ((max (max (r.oldestTxnMinutes.p95 + 60)
    (3 * (if r.switchesPerHour.p95 ≠ 0 then 60 / r.switchesPerHour.p95 else 30)
      + r.avgArchiveFileSizeGb / (0.5 : ℚ) + 15 + 60)) 120) / 60)

/-- computeRecommendationsJs models the call of computeRecommendations as
the report pipeline performs it, with the two array-typed static facts as
`getStatic` returns them: null (`Option.none`) when the fact's row is
absent.  JavaScript evaluation of `r.redoLogConfig.length` (report.ts line
205) throws a TypeError when redoLogConfig is null; a null lobColumns is
harmless because every access to it is guarded (`r.lobColumns &&` on line
199, `hasLobs` on lines 245-253), so it behaves like the empty list. -/
def computeRecommendationsJs (redoLogConfig : Option (List RedoLogRow))
    (lobColumns : Option (List LobColumn)) (r : DiagReport) :
    Except String Recommendations :=
  match redoLogConfig with
  | none => Except.error "TypeError: Cannot read properties of null (reading length)"
  | some redo =>
      Except.ok (computeRecommendations
        { r with redoLogConfig := redo, lobColumns := lobColumns.getD [] })

/-- reportNegativeSwitch is the base snapshot with a switch-rate p95 of -1:
the one point where the source's positivity test and claim C1's
nonzero test disagree. -/
def reportNegativeSwitch : DiagReport :=
  { baseReport with switchesPerHour := { zeroStats with p95 := -1 } }

/-- reportQuarterRedo is the base snapshot with one configured redo-log
group of 1342177280 bytes, i.e. exactly 1.25 GB. -/
def reportQuarterRedo : DiagReport :=
  { baseReport with redoLogConfig := [{ BYTES := 1342177280 }] }

/-- reportTxn45 is the base snapshot with an oldest-transaction p95 of 45
minutes (scenario 2 of the spec). -/
def reportTxn45 : DiagReport :=
  { baseReport with oldestTxnMinutes := { zeroStats with p95 := 45 } }

/-- reportQuarterCapture is the base snapshot with 25 of 100 schema tables
captured (scenario 3 of the spec). -/
def reportQuarterCapture : DiagReport :=
  { baseReport with capturedTableCount := 25, schemaTableCount := 100 }

/-- reportShortWindow is the base snapshot with an oldest-transaction p95
of 240 minutes (driving the recommended retention to 5 hours) and an
observed archive window whose minimum is 3 hours (scenario 4 of the
spec). -/
def reportShortWindow : DiagReport :=
  { baseReport with
    oldestTxnMinutes := { zeroStats with p95 := 240 }
    archiveWindowHours := { min := 3, max := 3, avg := 3, p95 := 3, samples := 4 } }

/-- reportHalfDisk is the base snapshot with an archive-generation p95 of
2.5 GB/hour, so that the retention disk estimate 2.5 x 3 = 7.5 GB is not an
integer. -/
def reportHalfDisk : DiagReport :=
  { baseReport with archiveGbPerHour := { zeroStats with p95 := 5/2 } }

/-- reportSuppString is the base snapshot whose supplemental-logging fact is
present but is the bare string NO rather than an array. -/
def reportSuppString : DiagReport :=
  { baseReport with supplementalLogging := SuppLogFact.str "NO" }

/-- Membership in a conditional singleton list. -/
lemma mem_ite_singleton {α : Type} (c : Prop) [Decidable c] (a b : α) :
    (a ∈ if c then [b] else ([] : List α)) ↔ c ∧ a = b := by
  by_cases h : c <;> simp [h]

/-- Membership in the supplemental-logging warning segment. -/
lemma mem_suppLogWarnings (r : DiagReport) (w : Warning) :
    w ∈ suppLogWarnings r ↔
      w = Warning.supplementalLogging ∧
      ∃ row rest, r.supplementalLogging = SuppLogFact.arr (row :: rest) ∧
        row.SUPPLEMENTAL_LOG_DATA_MIN ≠ some "YES" := by
  unfold suppLogWarnings
  cases hs : r.supplementalLogging with
  | null => simp
  | str s => simp
  | other => simp
  | arr rows =>
      cases rows with
      | nil => simp
      | cons row rest =>
          by_cases hmin : row.SUPPLEMENTAL_LOG_DATA_MIN = some "YES"
          · simp [hmin]
          · simp [hmin]

/-- Unfolded membership in the full warning list, one disjunct per policy
in push order. -/
lemma mem_warnings_iff (r : DiagReport) (w : Warning) :
    w ∈ warnings r ↔
      ((hasLobs r = true) ∧ w = Warning.lobColumns r.lobColumns r.maxStringSize) ∨
      (queryFilterMode r = "regex" ∧ w = Warning.queryFilter ( captureRatio r)) ∨
      ((r.archiveLagTarget = 0 ∧ r.switchesPerHour.min < 2) ∧
        w = Warning.archiveLag r.switchesPerHour.min) ∨
      (w = Warning.supplementalLogging ∧
        ∃ row rest, r.supplementalLogging = SuppLogFact.arr (row :: rest) ∧
          row.SUPPLEMENTAL_LOG_DATA_MIN ≠ some "YES") ∨
      ((0 < r.archiveWindowHours.samples ∧
          r.archiveWindowHours.min < (archiveRetentionHours r : ℚ)) ∧
        w = Warning.retentionRisk r.archiveWindowHours.min (archiveRetentionHours r)) := by
  unfold warnings
  simp only [List.mem_append, mem_ite_singleton, mem_suppLogWarnings, or_assoc]

/-- hasLobs is true exactly on a non-empty LOB column list. -/
lemma hasLobs_iff (r : DiagReport) : hasLobs r = true ↔ r.lobColumns ≠ [] := by
  simp [hasLobs]

/-- Retention of the base snapshot: ceil(max(60, 165, 120)/60) = 3 hours. -/
lemma archiveRetentionHours_base : archiveRetentionHours baseReport = 3 := by
  norm_num [archiveRetentionHours, jsCeil, minRetentionMin, switchIntervalMinP95,
    archiveWriteTimeMin, baseReport, zeroStats, Int.ceil_eq_iff]

/-- Retention of the negative-switch snapshot equals that of the base one,
because the source replaces a non-positive p95 by the 30-minute default. -/
lemma archiveRetentionHours_negativeSwitch :
    archiveRetentionHours reportNegativeSwitch = 3 := by
  norm_num [archiveRetentionHours, jsCeil, minRetentionMin, switchIntervalMinP95,
    archiveWriteTimeMin, reportNegativeSwitch, baseReport, zeroStats, Int.ceil_eq_iff]

/-- Retention demanded by claim C1's own formula on the negative-switch
snapshot: the nonzero test takes the 60 / (-1) branch, so the second bound
collapses and the 120-minute floor wins. -/
lemma claimC1SpecRetentionHours_negativeSwitch :
    claimC1SpecRetentionHours reportNegativeSwitch = 2 := by
  norm_num [claimC1SpecRetentionHours, jsCeil, reportNegativeSwitch, baseReport,
    zeroStats, Int.ceil_eq_iff]

/-- Claim C1 (corrected), counterexample: on the snapshot whose switch-rate
p95 is -1 the engine returns 3 hours but the claim's formula (which divides
by any NONZERO p95) demands 2 hours. -/
theorem claimC1_counterexample :
    (computeRecommendations reportNegativeSwitch).archiveRetentionHours
      ≠ claimC1SpecRetentionHours reportNegativeSwitch := by
  show archiveRetentionHours reportNegativeSwitch ≠ _
  rw [archiveRetentionHours_negativeSwitch, claimC1SpecRetentionHours_negativeSwitch]
  decide

/-- Claim C1 (amended): archiveRetentionHours is the ceiling in hours of the
maximum of the three lower bounds in minutes, where switchIntervalP95 is
60 / p95 when the switch-rate p95 is STRICTLY POSITIVE and 30 otherwise. -/
theorem claimC1_archive_retention_amended (r : DiagReport) :
    (computeRecommendations r).archiveRetentionHours =
      jsCeil ((max (max (r.oldestTxnMinutes.p95 + 60)
        (3 * (if r.switchesPerHour.p95 > 0 then 60 / r.switchesPerHour.p95 else 30)
          + r.avgArchiveFileSizeGb / (0.5 : ℚ) + 15 + 60)) 120) / 60) := by
  show jsCeil (minRetentionMin r / 60) = _
  have hb : switchIntervalMinP95 r * 3 + archiveWriteTimeMin r + 15 + 60
      = 3 * (if r.switchesPerHour.p95 > 0 then 60 / r.switchesPerHour.p95 else 30)
        + r.avgArchiveFileSizeGb / (0.5 : ℚ) + 15 + 60 := by
    simp only [switchIntervalMinP95, archiveWriteTimeMin]
    ring
  rw [minRetentionMin, hb]

/-- Claim C2: for every snapshot the returned retention is at least 2 hours
and the transaction retention at least 300000 ms. -/
theorem claimC2_invariants (r : DiagReport) :
    2 ≤ (computeRecommendations r).archiveRetentionHours ∧
    (300000 : ℚ) ≤ (computeRecommendations r).transactionRetentionMs := by
  constructor
  · show (2:ℤ) ≤ jsCeil (minRetentionMin r / 60)
    have h120 : (120:ℚ) ≤ minRetentionMin r := le_max_right _ _
    have h1 : (2:ℚ) ≤ minRetentionMin r / 60 := by linarith
    unfold jsCeil
    calc (2:ℤ) = Int.ceil (2:ℚ) := by norm_num
      _ ≤ Int.ceil (minRetentionMin r / 60) := Int.ceil_le_ceil h1
  · exact le_max_right _ _

/-- Claim C5: transactionRetentionMs doubles the p95 transaction lifetime in
milliseconds with a 300000 ms floor, giving exactly 5400000 at p95 = 45. -/
theorem claimC5_txn_retention (r : DiagReport) :
    (computeRecommendations r).transactionRetentionMs
        = max (r.oldestTxnMinutes.p95 * 2 * 60000) 300000
    ∧ (r.oldestTxnMinutes.p95 = 45 →
        (computeRecommendations r).transactionRetentionMs = 5400000) := by
  have h : (computeRecommendations r).transactionRetentionMs
      = max (r.oldestTxnMinutes.p95 * 2 * 60000) 300000 := by
    show txnRetentionMs r = _
    unfold txnRetentionMs
    congr 1
    ring
  exact ⟨h, fun h45 => by rw [h, h45]; norm_num⟩

/-- Claim C5 witness at the 45-minute snapshot of spec scenario 2. -/
theorem claimC5_witness :
    (computeRecommendations reportTxn45).transactionRetentionMs = 5400000 :=
  (claimC5_txn_retention reportTxn45).2 rfl

/-- Claim C9 (corrected), counterexample: with an archive-generation p95 of
2.5 GB/h and a computed retention of 3 h the exact product is 7.5 GB but the
engine returns the rounded 8 GB. -/
theorem claimC9_counterexample :
    ((computeRecommendations reportHalfDisk).archiveRetentionDiskGb : ℚ)
      ≠ reportHalfDisk.archiveGbPerHour.p95
        * ((computeRecommendations reportHalfDisk).archiveRetentionHours : ℚ) := by
  have hh : archiveRetentionHours reportHalfDisk = 3 := by
    norm_num [archiveRetentionHours, jsCeil, minRetentionMin, switchIntervalMinP95,
      archiveWriteTimeMin, reportHalfDisk, baseReport, zeroStats, Int.ceil_eq_iff]
  show ((jsRound (retentionDiskGb reportHalfDisk) : ℤ) : ℚ)
      ≠ reportHalfDisk.archiveGbPerHour.p95 * ((archiveRetentionHours reportHalfDisk : ℤ) : ℚ)
  rw [retentionDiskGb, hh]
  norm_num [jsRound, reportHalfDisk, baseReport, zeroStats]

/-- Claim C9 (amended): archiveRetentionDiskGb is the product of the
archive-generation p95 and the retention hours rounded half up to an
integer. -/
theorem claimC9_disk_amended (r : DiagReport) :
    (computeRecommendations r).archiveRetentionDiskGb
      = Int.floor (r.archiveGbPerHour.p95
          * ((computeRecommendations r).archiveRetentionHours : ℚ) + 1/2) := rfl

/-- Rounding an integer-valued rational is the identity. -/
lemma jsRound_intCast (n : ℤ) : jsRound ((n : ℚ)) = n := by
  unfold jsRound
  rw [Int.floor_int_add]
  norm_num

/-- Claim C4 (corrected), counterexample: with a configured group size of
exactly 1.25 GB and a quiet switch rate, the engine does not return the
current size unchanged; the final one-decimal rounding turns 1.25 into 1.3. -/
theorem claimC4_counterexample :
    reportQuarterRedo.switchesPerHour.p95 ≤ 6
    ∧ currentRedoSizeGb reportQuarterRedo = 5/4
    ∧ (computeRecommendations reportQuarterRedo).redoLogSizeGb
        ≠ currentRedoSizeGb reportQuarterRedo := by
  refine ⟨by norm_num [reportQuarterRedo, baseReport, zeroStats], ?_, ?_⟩
  · norm_num [currentRedoSizeGb, reportQuarterRedo, baseReport]
  · show (jsRound (redoLogSizeGbRaw reportQuarterRedo * 10) : ℚ) / 10 ≠ _
    norm_num [redoLogSizeGbRaw, currentRedoSizeGb, jsRound, switchIntervalMinP95,
      reportQuarterRedo, baseReport, zeroStats]

/-- Claim C4 (amended): when the p95 switch rate is at most 6/hour the
returned redoLogSizeGb is the currently configured per-group size rounded
half up to one decimal place; otherwise it is ceil(peak/4) clamped to a
floor of 2 GB (an integer, unaffected by the rounding); and redoLogGroups
is max(currentGroupCount, 4). -/
theorem claimC4_redo_sizing_amended (r : DiagReport) :
    ((computeRecommendations r).redoLogSizeGb =
      if r.switchesPerHour.p95 ≤ 6
        then (jsRound (currentRedoSizeGb r * 10) : ℚ) / 10
        else max ((jsCeil (peakGbPerHour r / 4) : ℤ) : ℚ) 2)
    ∧ (computeRecommendations r).redoLogGroups = max (currentGroups r) 4 := by
  refine ⟨?_, rfl⟩
  show (jsRound (redoLogSizeGbRaw r * 10) : ℚ) / 10 = _
  by_cases h : r.switchesPerHour.p95 ≤ 6
  · rw [if_pos h]
    unfold redoLogSizeGbRaw
    rw [if_neg (not_lt.2 h)]
  · rw [if_neg h]
    unfold redoLogSizeGbRaw
    rw [if_pos (lt_of_not_le h)]
    have hcast : max ((jsCeil (peakGbPerHour r / 4) : ℤ) : ℚ) 2
        = ((max (jsCeil (peakGbPerHour r / 4)) 2 : ℤ) : ℚ) := by
      push_cast
      rfl
    rw [hcast]
    have hmul : ((max (jsCeil (peakGbPerHour r / 4)) 2 : ℤ) : ℚ) * 10
        = ((max (jsCeil (peakGbPerHour r / 4)) 2 * 10 : ℤ) : ℚ) := by
      push_cast
      ring
    rw [hmul, jsRound_intCast]
    push_cast
    field_simp

/-- Claim C3 (code bug): when the redo-log-configuration static fact is
absent, the value handed to the engine is null and evaluating
`r.redoLogConfig.length` throws, so no Recommendations value is returned. -/
theorem claimC3_missing_redo_fact_throws :
    computeRecommendationsJs none none baseReport
      = Except.error "TypeError: Cannot read properties of null (reading length)" := rfl

/-- Claim C6: lobEnabled is always false; the LOB warning (naming the
detected columns and the max_string_size setting) appears iff at least one
LOB column was found; with no LOB columns no LOB warning of any payload
appears and the rationale is the no-LOB-columns string. -/
theorem claimC6_lob_policy (r : DiagReport) :
    (computeRecommendations r).lobEnabled = false
    ∧ (Warning.lobColumns r.lobColumns r.maxStringSize
          ∈ (computeRecommendations r).warnings
        ↔ r.lobColumns ≠ [])
    ∧ (r.lobColumns = [] →
        (∀ cols mss, Warning.lobColumns cols mss ∉ (computeRecommendations r).warnings)
        ∧ (computeRecommendations r).lobReason = "No LOB columns in captured tables.") := by
  refine ⟨rfl, ?_, ?_⟩
  · show Warning.lobColumns r.lobColumns r.maxStringSize ∈ warnings r ↔ _
    rw [mem_warnings_iff]
    simp [hasLobs_iff]
  · intro hemp
    constructor
    · intro cols mss hw
      rw [show (computeRecommendations r).warnings = warnings r from rfl,
        mem_warnings_iff] at hw
      simp [hasLobs_iff, hemp] at hw
    · show lobReason r = _
      simp [lobReason, hasLobs, hemp]

/-- Claim C6 witness: the base snapshot has no LOB columns and its rationale
is the fixed no-LOB string. -/
theorem claimC6_witness :
    (computeRecommendations baseReport).lobReason
      = "No LOB columns in captured tables." :=
  ((claimC6_lob_policy baseReport).2.2 rfl).2

/-- Claim C7: the capture ratio treats an empty schema as full capture;
batch sizes switch at ratio 0.3; the filter mode switches at 0.5; and the
query-filter warning appears iff the mode is regex. -/
theorem claimC7_batch_and_filter (r : DiagReport) :
    captureRatio r
        = (if r.schemaTableCount = 0 then 1
            else (r.capturedTableCount : ℚ) / (r.schemaTableCount : ℚ))
    ∧ (( captureRatio r < (0.3 : ℚ) →
          (computeRecommendations r).batchSizeDefault = 5000
          ∧ (computeRecommendations r).batchSizeMax = 10000)
      ∧ ((0.3 : ℚ) ≤ captureRatio r →
          (computeRecommendations r).batchSizeDefault = 10000
          ∧ (computeRecommendations r).batchSizeMax = 50000))
    ∧ (computeRecommendations r).queryFilterMode
        = (if captureRatio r < (0.5 : ℚ) then "regex" else "none")
    ∧ (Warning.queryFilter ( captureRatio r) ∈ (computeRecommendations r).warnings
        ↔ (computeRecommendations r).queryFilterMode = "regex") := by
  refine ⟨?_, ⟨?_, ?_⟩, rfl, ?_⟩
  · unfold captureRatio
    rcases Nat.eq_zero_or_pos r.schemaTableCount with h0 | hpos
    · rw [h0]
      norm_num
    · rw [if_pos hpos, if_neg (Nat.pos_iff_ne_zero.mp hpos)]
  · intro hlt
    constructor
    · show batchSizeDefault r = 5000
      unfold batchSizeDefault
      rw [if_pos hlt]
    · show batchSizeMax r = 10000
      unfold batchSizeMax
      rw [if_pos hlt]
  · intro hge
    constructor
    · show batchSizeDefault r = 10000
      unfold batchSizeDefault
      rw [if_neg (not_lt.2 hge)]
    · show batchSizeMax r = 50000
      unfold batchSizeMax
      rw [if_neg (not_lt.2 hge)]
  · show Warning.queryFilter ( captureRatio r) ∈ warnings r ↔ queryFilterMode r = "regex"
    rw [mem_warnings_iff]
    simp

/-- Claim C7 witness at 25 of 100 captured tables (spec scenario 3). -/
theorem claimC7_witness :
    (computeRecommendations reportQuarterCapture).batchSizeDefault = 5000
    ∧ (computeRecommendations reportQuarterCapture).batchSizeMax = 10000 :=
  (claimC7_batch_and_filter reportQuarterCapture).2.1.1 (by
    norm_num [captureRatio, reportQuarterCapture, baseReport])

/-- Claim C8: the retention-risk warning appears iff the archive-window
statistic has a sample and its minimum lies below the computed retention
hours, and any retention-risk warning present carries exactly the observed
minimum window and the recommended retention hours. -/
theorem claimC8_retention_risk (r : DiagReport) :
    (Warning.retentionRisk r.archiveWindowHours.min
          ((computeRecommendations r).archiveRetentionHours)
        ∈ (computeRecommendations r).warnings
      ↔ 0 < r.archiveWindowHours.samples
        ∧ r.archiveWindowHours.min
            < (((computeRecommendations r).archiveRetentionHours : ℤ) : ℚ))
    ∧ ∀ m h, Warning.retentionRisk m h ∈ (computeRecommendations r).warnings →
        m = r.archiveWindowHours.min
        ∧ h = (computeRecommendations r).archiveRetentionHours := by
  constructor
  · show Warning.retentionRisk r.archiveWindowHours.min (archiveRetentionHours r)
        ∈ warnings r
      ↔ 0 < r.archiveWindowHours.samples
        ∧ r.archiveWindowHours.min < ((archiveRetentionHours r : ℤ) : ℚ)
    rw [mem_warnings_iff]
    simp
  · intro m h hw
    rw [show (computeRecommendations r).warnings = warnings r from rfl,
      mem_warnings_iff] at hw
    simp only [reduceCtorEq, and_false, false_and, false_or, or_false,
      Warning.retentionRisk.injEq] at hw
    exact ⟨hw.2.1, hw.2.2⟩

/-- Claim C8 witness: with a 3-hour minimum window and a 5-hour computed
retention the retention-risk warning is present. -/
theorem claimC8_witness :
    Warning.retentionRisk reportShortWindow.archiveWindowHours.min
        ((computeRecommendations reportShortWindow).archiveRetentionHours)
      ∈ (computeRecommendations reportShortWindow).warnings :=
  (claimC8_retention_risk reportShortWindow).1.mpr
    ⟨by norm_num [reportShortWindow, baseReport, zeroStats], by
      have h5 : archiveRetentionHours reportShortWindow = 5 := by
        norm_num [archiveRetentionHours, jsCeil, minRetentionMin, switchIntervalMinP95,
          archiveWriteTimeMin, reportShortWindow, baseReport, zeroStats, Int.ceil_eq_iff]
      show reportShortWindow.archiveWindowHours.min
          < ((archiveRetentionHours reportShortWindow : ℤ) : ℚ)
      rw [h5]
      norm_num [reportShortWindow, baseReport, zeroStats]⟩

/-- Claim C10: the supplemental-logging warning appears iff the
supplemental-logging fact is a non-empty array whose first row's
SUPPLEMENTAL_LOG_DATA_MIN differs from YES; a present-but-non-array fact
(e.g. the bare string NO) never produces it. -/
theorem claimC10_supplemental_warning (r : DiagReport) :
    (Warning.supplementalLogging ∈ (computeRecommendations r).warnings ↔
      ∃ row rest, r.supplementalLogging = SuppLogFact.arr (row :: rest) ∧
        row.SUPPLEMENTAL_LOG_DATA_MIN ≠ some "YES")
    ∧ ∀ s, r.supplementalLogging = SuppLogFact.str s →
        Warning.supplementalLogging ∉ (computeRecommendations r).warnings := by
  have hmem : Warning.supplementalLogging ∈ warnings r ↔
      ∃ row rest, r.supplementalLogging = SuppLogFact.arr (row :: rest) ∧
        row.SUPPLEMENTAL_LOG_DATA_MIN ≠ some "YES" := by
    rw [mem_warnings_iff]
    simp
  constructor
  · exact hmem
  · intro s hs hw
    rcases hmem.mp hw with ⟨row, rest, harr, _⟩
    rw [hs] at harr
    exact SuppLogFact.noConfusion harr

/-- Claim C10 witness: a bare-string supplemental-logging fact of NO yields
no supplemental-logging warning. -/
theorem claimC10_witness :
    Warning.supplementalLogging ∉ (computeRecommendations reportSuppString).warnings :=
  (claimC10_supplemental_warning reportSuppString).2 "NO" rfl
